import Mathlib

/-
  Verification development for the quillr backend.

  The repository is a FastAPI + SQLModel blogging backend.  This file gives a
  shallow embedding of its core: the JWT token codec (app/utils/auth.py and the
  helpers in app/main.py), the session boundary (get_current_user_id), the
  identity resolver of the Google OAuth callbacks (app/routers/auth.py and
  app/main.py), the article store handlers (app/routers/articles.py), and the
  Starlette-style route dispatch of the articles router.

  Times are seconds since the epoch (datetime.utcnow is modelled as a Nat
  clock passed explicitly).  The database is modelled as an explicit list of
  rows plus a fresh primary-key counter; a commit of a dirty row is a map over
  the list replacing the row with the matching primary key.
-/

namespace Quillr


/-! ## JWT codec (python-jose `jwt.encode` / `jwt.decode`)

A JWT payload in this code base is a dict holding at most the claims
`user_id` (put there by the application) and `exp` (put there by
`create_access_token` in app/main.py, and checked by `jose.jwt.decode`).
A token is either a well-formed token signed with some secret, or a
malformed/garbage string (which also covers the empty string). -/

structure JwtClaims where
  user_id : Option Nat
  exp : Option Nat
deriving Repr, DecidableEq

inductive Jwt where
  | signed (claims : JwtClaims) (secret : String)
  | malformed (raw : String)
deriving Repr, DecidableEq

/-- `jose.jwt.encode(claims, secret, algorithm="HS256")`. -/
def jwtEncode (claims : JwtClaims) (secret : String) : Jwt :=
  Jwt.signed claims secret

/-- `jose.jwt.decode(token, secret, algorithms=["HS256"])` at clock `now`:
the signature must verify against `secret`, and when an `exp` claim is
present jose rejects the token iff `exp < now` (jose `_validate_exp` with
zero leeway; a token with no `exp` claim is never expired). A malformed
token raises, modelled as `none`. -/
def jwtDecode (token : Jwt) (secret : String) (now : Nat) : Option JwtClaims :=
  match token with
  | Jwt.malformed _ => none
  | Jwt.signed claims s =>
    if s = secret then
      match claims.exp with
      | none => some claims
      | some e => if e < now then none else some claims
    else none

/-- The Python empty string is falsy; the only token value that is falsy is
the empty raw string. -/
def tokenIsEmpty : Jwt → Bool
  | Jwt.malformed "" => true
  | _ => false

/-! ## app/utils/auth.py -/

/-- `create_jwt(data)` (app/utils/auth.py lines 18-22): signs the payload
dict exactly as supplied; note that it adds no `exp` claim. -/
def create_jwt (data : JwtClaims) (secret : String) : Jwt :=
  jwtEncode data secret

/-- `verify_token(token)` (app/utils/auth.py lines 28-40): `None`/empty
token yields `None`; otherwise decode, with any `JWTError` swallowed into
`None`. -/
def verify_token (token : Jwt) (secret : String) (now : Nat) : Option JwtClaims :=
  if tokenIsEmpty token then none
  else jwtDecode token secret now

/-! ## app/main.py JWT helpers -/

/-- `ACCESS_TOKEN_EXPIRE_MINUTES = 60 * 24 * 7` (app/main.py line 45). -/
def ACCESS_TOKEN_EXPIRE_MINUTES : Nat := 60 * 24 * 7

/-- `create_access_token({"user_id": uid})` (app/main.py lines 93-97): copies
the data and sets `exp = utcnow() + timedelta(minutes=ACCESS_TOKEN_EXPIRE_MINUTES)`,
i.e. seven days after `now`. -/
def create_access_token (user_id : Nat) (secret : String) (now : Nat) : Jwt :=
  jwtEncode { user_id := some user_id, exp := some (now + ACCESS_TOKEN_EXPIRE_MINUTES * 60) } secret

/-- `verify_token` of app/main.py (lines 99-103): plain decode with
`JWTError` swallowed into `None`. -/
def main_verify_token (token : Jwt) (secret : String) (now : Nat) : Option JwtClaims :=
  jwtDecode token secret now

/-! ## Session boundary (app/utils/auth.py `get_current_user_id`) -/

/-- The `Authorization` request header: either a well-formed
`Bearer <token>` header (scheme matched case-insensitively, token
whitespace-stripped, as in lines 60-62), or some other header value. -/
inductive AuthHeader where
  | bearer (tok : Jwt)
  | other (raw : String)
deriving Repr, DecidableEq

/-- An incoming request, restricted to the parts the session boundary
reads: the value of the `quillr_token` cookie (when the cookie is sent)
and the `Authorization` header (when sent). -/
structure Request where
  quillr_cookie : Option Jwt
  authorization : Option AuthHeader
deriving Repr, DecidableEq

/-- The token taken from the `Authorization` header, if the header is
present and starts (case-insensitively) with `bearer `. -/
def headerToken : Option AuthHeader → Option Jwt
  | some (AuthHeader.bearer t) => some t
  | _ => none

/-- The token-extraction part of `get_current_user_id` (lines 51-62):
`token = None`; if the cookie value is truthy (present and non-empty) it
becomes the token; if the token is still unset, try the Bearer header. -/
def extractToken (req : Request) : Option Jwt :=
  let afterCookie : Option Jwt :=
    match req.quillr_cookie with
    | some c => if tokenIsEmpty c then none else some c
    | none => none
  match afterCookie with
  | some t => some t
  | none => headerToken req.authorization

/-- `get_current_user_id(request)` (app/utils/auth.py lines 46-70): extract
a token from (cookie, then header); `if not token: return None`; verify it;
on success return `payload.get("user_id")`. -/
def get_current_user_id (req : Request) (secret : String) (now : Nat) : Option Nat :=
  match extractToken req with
  | none => none
  | some t =>
    if tokenIsEmpty t then none
    else
      match verify_token t secret now with
      | none => none
      | some payload => payload.user_id

/-- Modelled from the spec: the session boundary of §4.3 as the claim
words it, "reading the quillr_token cookie first and, only if the cookie
is absent, the Authorization: Bearer header; the first one found is the
one verified (no merging)".  A present cookie is always the credential
that gets verified, even when its value is the empty string. -/
def authenticateCookieFirstStrict (req : Request) (secret : String) (now : Nat) : Option Nat :=
  let token : Option Jwt :=
    match req.quillr_cookie with
    | some c => some c
    | none => headerToken req.authorization
  match token with
  | none => none
  | some t =>
    match verify_token t secret now with
    | none => none
    | some payload => payload.user_id

/-- Modelled from the spec, amended: as `authenticateCookieFirstStrict`
but the Bearer header is consulted when the cookie is absent *or empty*. -/
def authenticateCookieFirstAmended (req : Request) (secret : String) (now : Nat) : Option Nat :=
  let token : Option Jwt :=
    match req.quillr_cookie with
    | some c => if tokenIsEmpty c then headerToken req.authorization else some c
    | none => headerToken req.authorization
  match token with
  | none => none
  | some t =>
    match verify_token t secret now with
    | none => none
    | some payload => payload.user_id

/-! ## Data model (app/db/models.py)

Primary keys are `Optional[int]` assigned by the database on insert; the
store carries the next fresh key.  Note that `User.google_id` is a plain
column in models.py: it carries **no** uniqueness constraint. -/

structure User where
  id : Option Nat
  google_id : String
  email : String
  name : Option String
  picture : Option String
  created_at : Nat
deriving Repr, DecidableEq

structure Article where
  id : Nat
  title : String
  content : String
  cover_image : Option String
  views : Nat
  likes : Nat
  last_viewed_at : Option Nat
  updated_at : Nat
  created_at : Nat
  author_id : Nat
deriving Repr, DecidableEq

/-- The `user` table plus the database's fresh primary-key counter. -/
structure UserStore where
  users : List User
  nextId : Nat
deriving Repr, DecidableEq

/-- The `article` table plus the database's fresh primary-key counter. -/
structure ArticleStore where
  articles : List Article
  nextId : Nat
deriving Repr, DecidableEq

/-! ## Identity resolver (app/routers/auth.py `google_callback`, lines 100-115)

`session.query(User).filter((User.google_id == gid) | (User.email == email)).first()`
returns the first row, in table order, matching either column; with no
match, a fresh row is inserted, committed and refreshed (which fills in
the database-assigned primary key). -/

def findUserByGidOrEmail (st : UserStore) (gid email : String) : Option User :=
  st.users.find? (fun u => u.google_id = gid || u.email = email)

/-- The database half of `google_callback` in app/routers/auth.py
(lines 100-115): the OR-filter lookup, then insert-if-absent. Returns the
resolved user and the resulting store. -/
def google_callback_resolve (st : UserStore) (gid email : String)
    (name picture : Option String) (now : Nat) : User × UserStore :=
  match findUserByGidOrEmail st gid email with
  | some u => (u, st)
  | none =>
    let u : User :=
      { id := some st.nextId, google_id := gid, email := email,
        name := name, picture := picture, created_at := now }
    (u, { users := st.users ++ [u], nextId := st.nextId + 1 })

/-- The database half of `google_callback` in app/main.py (lines 136-147):
lookup by `google_id` only, then insert-if-absent. -/
def main_callback_resolve (st : UserStore) (gid email : String)
    (name picture : Option String) (now : Nat) : User × UserStore :=
  match st.users.find? (fun u => u.google_id = gid) with
  | some u => (u, st)
  | none =>
    let u : User :=
      { id := some st.nextId, google_id := gid, email := email,
        name := name, picture := picture, created_at := now }
    (u, { users := st.users ++ [u], nextId := st.nextId + 1 })

/-- Modelled from the spec: `resolve` as §4.2 words it, "looks up an
existing User by external_id (falling back to email if no match)"; only
when neither matches does it create. -/
def resolveSpecPriority (st : UserStore) (gid email : String)
    (name picture : Option String) (now : Nat) : User × UserStore :=
  match st.users.find? (fun u => u.google_id = gid) with
  | some u => (u, st)
  | none =>
    match st.users.find? (fun u => u.email = email) with
    | some u => (u, st)
    | none =>
      let u : User :=
        { id := some st.nextId, google_id := gid, email := email,
          name := name, picture := picture, created_at := now }
      (u, { users := st.users ++ [u], nextId := st.nextId + 1 })

/-! ## Interleaving semantics for concurrent resolver calls

Each callback request is an independent task; the SELECT and the
INSERT+COMMIT are its two visits to shared storage, so a task is split at
that boundary into two atomic steps.  models.py places no uniqueness
constraint on `google_id`, so an INSERT never conflicts. -/

inductive ResolveTask where
  | atSelect
  | atInsert (found : Option User)
  | finished (u : User)
deriving Repr, DecidableEq

/-- One atomic step of a resolver task running
`google_callback_resolve`'s body against the shared store. -/
def resolveStep (gid email : String) (name picture : Option String) (now : Nat) :
    ResolveTask → UserStore → ResolveTask × UserStore
  | ResolveTask.atSelect, st =>
      (ResolveTask.atInsert (findUserByGidOrEmail st gid email), st)
  | ResolveTask.atInsert found, st =>
      match found with
      | some u => (ResolveTask.finished u, st)
      | none =>
        let u : User :=
          { id := some st.nextId, google_id := gid, email := email,
            name := name, picture := picture, created_at := now }
        (ResolveTask.finished u, { users := st.users ++ [u], nextId := st.nextId + 1 })
  | ResolveTask.finished u, st => (ResolveTask.finished u, st)

/-- Run two resolver tasks for the same identity under a schedule:
`true` steps task 1, `false` steps task 2. -/
def execSchedule2 (gid email : String) (name picture : Option String) (now : Nat)
    (sched : List Bool) : ResolveTask × ResolveTask × UserStore →
    ResolveTask × ResolveTask × UserStore
  | s =>
    sched.foldl
      (fun s b =>
        if b then
          let r := resolveStep gid email name picture now s.1 s.2.2
          (r.1, s.2.1, r.2)
        else
          let r := resolveStep gid email name picture now s.2.1 s.2.2
          (s.1, r.1, r.2))
      s

/-! ## Article store handlers (app/routers/articles.py)

Each handler returns its HTTP outcome paired with the resulting store;
raising `HTTPException` leaves the store untouched.  `request` bodies are
JSON dicts read with `data.get(...)`, so each field is optional. -/

structure HttpError where
  status : Nat
  detail : String
deriving Repr, DecidableEq

def err401 : HttpError := { status := 401, detail := "Not authenticated" }
def err404Article : HttpError := { status := 404, detail := "Article not found" }
def err403 : HttpError := { status := 403, detail := "Not allowed" }
def err400Fields : HttpError := { status := 400, detail := "Title and content required" }

/-- Python truthiness of `data.get(field)` for a string field: `None` and
the empty string are falsy. -/
def optStrTruthy : Option String → Bool
  | none => false
  | some s => s ≠ ""

/-- Python truthiness of the `Optional[int]` returned by
`get_current_user_id`: `None` and `0` are falsy (`if not user_id`). -/
def optNatTruthy : Option Nat → Bool
  | none => false
  | some n => n ≠ 0

/-- Committing a dirty row: the table keeps every other row and replaces
the row with this primary key. -/
def commitArticle (st : ArticleStore) (a : Article) : ArticleStore :=
  { st with articles := st.articles.map (fun b => if b.id = a.id then a else b) }

/-- `session.get(Article, article_id)`: primary-key lookup.  The path
parameter is an `Int` (pydantic `int`), table keys are naturals. -/
def dbGetArticle (st : ArticleStore) (article_id : Int) : Option Article :=
  st.articles.find? (fun a => (a.id : Int) = article_id)

structure ArticleData where
  title : Option String
  content : Option String
  cover_image : Option String
deriving Repr, DecidableEq

/-- `create_article` (app/routers/articles.py lines 32-62).  The handler
reads `datetime.utcnow()` twice in immediate succession for `created_at`
and `updated_at`; both reads are modelled as the single instant `now`. -/
def create_article (data : ArticleData) (req : Request) (st : ArticleStore)
    (secret : String) (now : Nat) : Except HttpError Article × ArticleStore :=
  let user_id := get_current_user_id req secret now
  if !optNatTruthy user_id then (Except.error err401, st)
  else
    if !optStrTruthy data.title || !optStrTruthy data.content then
      (Except.error err400Fields, st)
    else
      let article : Article :=
        { id := st.nextId, title := data.title.getD "", content := data.content.getD "",
          cover_image := data.cover_image, views := 0, likes := 0,
          last_viewed_at := none, updated_at := now, created_at := now,
          author_id := user_id.getD 0 }
      (Except.ok article, { articles := st.articles ++ [article], nextId := st.nextId + 1 })

/-- `get_article` (app/routers/articles.py lines 68-81): 404 when the key
is absent; otherwise increment `views`, set `last_viewed_at = utcnow()`,
commit, and return the refreshed row. -/
def get_article (article_id : Int) (st : ArticleStore) (now : Nat) :
    Except HttpError Article × ArticleStore :=
  match dbGetArticle st article_id with
  | none => (Except.error err404Article, st)
  | some article =>
    let a := { article with views := article.views + 1, last_viewed_at := some now }
    (Except.ok a, commitArticle st a)

/-- The composite descending sort key of the trending query:
`ORDER BY views DESC, likes DESC, created_at DESC` as a boolean
"comes no later than" relation. -/
def trendingKeyGE (a b : Article) : Bool :=
  if a.views = b.views then
    if a.likes = b.likes then decide (b.created_at ≤ a.created_at)
    else decide (b.likes < a.likes)
  else decide (b.views < a.views)

/-- `get_trending_articles` (app/routers/articles.py lines 88-101):
`select(Article).order_by(views desc, likes desc, created_at desc).limit(10)`.
The SQL sort is modelled with a merge sort under the composite key. -/
def get_trending_articles (st : ArticleStore) : List Article :=
  (st.articles.mergeSort trendingKeyGE).take 10

/-- `like_article` (app/routers/articles.py lines 107-118). -/
def like_article (article_id : Int) (st : ArticleStore) :
    Except HttpError Nat × ArticleStore :=
  match dbGetArticle st article_id with
  | none => (Except.error err404Article, st)
  | some article =>
    let a := { article with likes := article.likes + 1 }
    (Except.ok a.likes, commitArticle st a)

/-- `update_article` (app/routers/articles.py lines 123-151): 401 for a
missing/invalid credential, then 404 for a missing row, then 403 for a
non-author, then 400 for missing fields, and only then the write. -/
def update_article (article_id : Int) (data : ArticleData) (req : Request)
    (st : ArticleStore) (secret : String) (now : Nat) :
    Except HttpError Article × ArticleStore :=
  let user_id := get_current_user_id req secret now
  if !optNatTruthy user_id then (Except.error err401, st)
  else
    match dbGetArticle st article_id with
    | none => (Except.error err404Article, st)
    | some article =>
      if article.author_id ≠ user_id.getD 0 then (Except.error err403, st)
      else
        if !optStrTruthy data.title || !optStrTruthy data.content then
          (Except.error err400Fields, st)
        else
          let a := { article with title := data.title.getD "",
                                  content := data.content.getD "", updated_at := now }
          (Except.ok a, commitArticle st a)

/-- `get_my_articles` (app/routers/articles.py lines 17-26). -/
def get_my_articles (req : Request) (st : ArticleStore) (secret : String)
    (now : Nat) : Except HttpError (List Article) × ArticleStore :=
  let user_id := get_current_user_id req secret now
  if !optNatTruthy user_id then (Except.error err401, st)
  else (Except.ok (st.articles.filter (fun a => a.author_id = user_id.getD 0)), st)

/-! ## Route dispatch of the articles router

Starlette tries routes in declaration order; a bare `{name}` path
parameter compiles to the default convertor, whose regex matches any
single non-empty path segment.  FastAPI then coerces the captured string
to the annotated type (`int` for `article_id`); a failed coercion yields
a 422 validation response.  The routes below are in the declaration order
of app/routers/articles.py, mounted under the `/articles` path root. -/

inductive Method where
  | GET | POST | PUT
deriving Repr, DecidableEq

inductive Seg where
  | lit (s : String)
  | param (name : String)
deriving Repr, DecidableEq

/-- Match a pattern against the path segments, collecting captured
parameters; a `param` segment matches any non-empty segment. -/
def matchPath : List Seg → List String → Option (List (String × String))
  | [], [] => some []
  | Seg.lit s :: ps, x :: xs => if s = x then matchPath ps xs else none
  | Seg.param n :: ps, x :: xs =>
      if x = "" then none else (matchPath ps xs).map (fun bs => (n, x) :: bs)
  | _, _ => none

inductive ArticlesHandler where
  | myAll | create | getArticle | trending | like | update
deriving Repr, DecidableEq

/-- The routes of app/routers/articles.py in declaration order:
`GET /me/all`, `POST /`, `GET /{article_id}`, `GET /trending`,
`POST /{article_id}/like`, `PUT /{article_id}`. -/
def articleRoutes : List (Method × List Seg × ArticlesHandler) :=
  [ (Method.GET, [Seg.lit "me", Seg.lit "all"], ArticlesHandler.myAll),
    (Method.POST, [], ArticlesHandler.create),
    (Method.GET, [Seg.param "article_id"], ArticlesHandler.getArticle),
    (Method.GET, [Seg.lit "trending"], ArticlesHandler.trending),
    (Method.POST, [Seg.param "article_id", Seg.lit "like"], ArticlesHandler.like),
    (Method.PUT, [Seg.param "article_id"], ArticlesHandler.update) ]

/-- First route (in declaration order) whose method and path pattern both
match, together with its captured path parameters. -/
def firstMatch (m : Method) (path : List String) :
    Option (ArticlesHandler × List (String × String)) :=
  articleRoutes.findSome? (fun r =>
    if r.1 = m then (matchPath r.2.1 path).map (fun bs => (r.2.2, bs)) else none)

/-- FastAPI's coercion of a captured path segment to the `int` annotation
of `article_id`: an optional minus sign followed by one or more decimal
digits (the shapes pydantic accepts for a path string). -/
def parseIntSeg (s : String) : Option Int :=
  let digitsVal : List Char → Option Nat := fun cs =>
    if cs.isEmpty then none
    else if cs.all Char.isDigit then
      some (cs.foldl (fun a c => a * 10 + (c.toNat - 48)) 0)
    else none
  match s.toList with
  | '-' :: rest => (digitsVal rest).map (fun n => -(n : Int))
  | cs => (digitsVal cs).map (fun n => (n : Int))

/-- The observable outcome of a `GET` request to the articles router. -/
inductive GetOutcome where
  | unprocessable
  | httpError (e : HttpError)
  | article (a : Article) (st : ArticleStore)
  | trendingList (l : List Article)
  | articleList (l : List Article)
  | noRoute
deriving Repr, DecidableEq

/-- A `GET` request to the articles router: Starlette dispatch in
declaration order, then the matched handler (only `GET` handlers can be
matched; the wildcard arm is unreachable). -/
def serveArticlesGET (req : Request) (path : List String) (st : ArticleStore)
    (secret : String) (now : Nat) : GetOutcome :=
  match firstMatch Method.GET path with
  | none => GetOutcome.noRoute
  | some (ArticlesHandler.getArticle, params) =>
    match (params.lookup "article_id").bind parseIntSeg with
    | none => GetOutcome.unprocessable
    | some i =>
      match get_article i st now with
      | (Except.error e, _) => GetOutcome.httpError e
      | (Except.ok a, st') => GetOutcome.article a st'
  | some (ArticlesHandler.trending, _) => GetOutcome.trendingList (get_trending_articles st)
  | some (ArticlesHandler.myAll, _) =>
    match get_my_articles req st secret now with
    | (Except.error e, _) => GetOutcome.httpError e
    | (Except.ok l, _) => GetOutcome.articleList l
  | some (_, _) => GetOutcome.noRoute

/-! ## Helper lemmas -/

/-- `find?` returns the designated element when it satisfies the predicate
and is the only member doing so. -/
theorem find?_eq_of_mem_of_unique {α : Type} (p : α → Bool) :
    ∀ (l : List α) (a : α), a ∈ l → p a = true →
      (∀ b ∈ l, p b = true → b = a) → l.find? p = some a := by
  intro l
  induction l with
  | nil => intro a ha _ _; cases ha
  | cons h t ih =>
    intro a ha hpa huniq
    by_cases hph : p h = true
    · have heq : h = a := huniq h (List.mem_cons_self h t) hph
      subst heq
      simp [List.find?, hph]
    · have hph' : p h = false := by simpa using hph
      have hat : a ∈ t := by
        rcases List.mem_cons.mp ha with rfl | hat
        · exact absurd hpa hph
        · exact hat
      have := ih a hat hpa (fun b hb hpb => huniq b (List.mem_cons_of_mem h hb) hpb)
      simp [List.find?, hph', this]

/-- In a table whose rows have pairwise distinct primary keys, two members
with the same key are the same row. -/
theorem eq_of_mem_of_id_eq (l : List Article)
    (huniq : l.Pairwise (fun x y => x.id ≠ y.id)) (a b : Article)
    (ha : a ∈ l) (hb : b ∈ l) (hid : b.id = a.id) : b = a := by
  by_contra hne
  have hsymm : Symmetric (fun (x y : Article) => x.id ≠ y.id) := by
    intro x y h he
    exact h he.symm
  exact (huniq.forall hsymm hb ha hne) hid

/-- Primary-key lookup in a table with pairwise distinct keys finds the
member row carrying that key. -/
theorem dbGetArticle_eq_some (st : ArticleStore) (a : Article)
    (huniq : st.articles.Pairwise (fun x y => x.id ≠ y.id))
    (ha : a ∈ st.articles) : dbGetArticle st (a.id : Int) = some a := by
  apply find?_eq_of_mem_of_unique _ _ _ ha (by simp)
  intro b hb hpb
  have hid : b.id = a.id := by exact_mod_cast of_decide_eq_true hpb
  exact eq_of_mem_of_id_eq st.articles huniq a b ha hb hid

/-! ## Claim theorems -/

/-- C1: the claim says a credential issued for user `u` at time `t`
carries `expires_at = t + 7` days and verifying it at any `t' ≥ expires_at`
yields invalid.  Evaluating the code at the failing input: `create_jwt`
(app/utils/auth.py) signs its payload as supplied and adds no `exp` claim,
so the credential it issues for user 1 still verifies to user 1 at time
691200 s — eight days after an issuance at time 0, past any seven-day
horizon — where the claim requires invalid. -/
theorem claim1_create_jwt_token_never_expires :
    (verify_token (create_jwt { user_id := some 1, exp := none } "s") "s" 691200).bind
      (fun p => p.user_id) = some 1 := by decide

/-- C2: the claim says `GET /articles/trending` is dispatched to the
trending operation.  In app/routers/articles.py the route `/{article_id}`
is declared before `/trending`, so for every article store the request is
dispatched to `get_article` with the captured segment `"trending"`, whose
coercion to the `int` path-parameter annotation fails: the request yields
a 422 validation response and never the ranked top-10 list. -/
theorem claim2_trending_route_shadowed (req : Request) (st : ArticleStore)
    (secret : String) (now : Nat) :
    firstMatch Method.GET ["trending"] =
      some (ArticlesHandler.getArticle, [("article_id", "trending")]) ∧
    serveArticlesGET req ["trending"] st secret now = GetOutcome.unprocessable ∧
    serveArticlesGET req ["trending"] st secret now ≠
      GetOutcome.trendingList (get_trending_articles st) := by
  refine ⟨by decide, rfl, ?_⟩
  intro h
  rw [show serveArticlesGET req ["trending"] st secret now = GetOutcome.unprocessable from rfl] at h
  exact GetOutcome.noConfusion h

/-- C3: the claim says two concurrent `resolve` calls for the same
`external_id` create at most one User row.  The resolver
(app/routers/auth.py lines 100-115) is an unsynchronised select-then-insert
and models.py puts no uniqueness constraint on `google_id`; under the
schedule in which both SELECTs run before either INSERT, starting from an
empty table, both tasks insert, and the final table holds two rows with
`external_id = "abc"`. -/
theorem claim3_duplicate_rows_under_race :
    execSchedule2 "abc" "a@x.com" none none 0 [true, false, true, false]
        (ResolveTask.atSelect, ResolveTask.atSelect, { users := [], nextId := 1 }) =
      (ResolveTask.finished
        { id := some 1, google_id := "abc", email := "a@x.com",
          name := none, picture := none, created_at := 0 },
       ResolveTask.finished
        { id := some 2, google_id := "abc", email := "a@x.com",
          name := none, picture := none, created_at := 0 },
       { users :=
          [{ id := some 1, google_id := "abc", email := "a@x.com",
             name := none, picture := none, created_at := 0 },
           { id := some 2, google_id := "abc", email := "a@x.com",
             name := none, picture := none, created_at := 0 }],
         nextId := 3 }) ∧
    ((execSchedule2 "abc" "a@x.com" none none 0 [true, false, true, false]
        (ResolveTask.atSelect, ResolveTask.atSelect,
          { users := [], nextId := 1 })).2.2.users.filter
      (fun u => u.google_id = "abc")).length = 2 := by
  constructor
  · decide
  · decide

/-- C4: the claim says an update of a stored article by an authenticated
caller other than its author fails with a forbidden error distinct from
not-found and mutates nothing.  `update_article` checks the author before
reading the body fields and before any write, raises 403 ("Not allowed",
distinct from the 404 "Article not found"), and leaves the store — hence
every field of the article — unchanged.  Authenticated user ids are
database primary keys, which start at 1, hence the `u ≠ 0` hypothesis. -/
theorem claim4_update_by_non_author_forbidden
    (st : ArticleStore) (a : Article) (data : ArticleData) (req : Request)
    (secret : String) (now : Nat) (u : Nat)
    (hmem : a ∈ st.articles)
    (huniq : st.articles.Pairwise (fun x y => x.id ≠ y.id))
    (hauth : get_current_user_id req secret now = some u)
    (hu : u ≠ 0) (hne : u ≠ a.author_id) :
    update_article (a.id : Int) data req st secret now = (Except.error err403, st) ∧
    err403 ≠ err404Article := by
  refine ⟨?_, by decide⟩
  have hfind := dbGetArticle_eq_some st a huniq hmem
  simp [update_article, hauth, optNatTruthy, hu, hfind, Ne.symm hne]

def tok4 : Jwt := jwtEncode { user_id := some 2, exp := none } "s"

def req4 : Request := { quillr_cookie := some tok4, authorization := none }

def a4 : Article :=
  { id := 5, title := "Hi", content := "World", cover_image := none, views := 0,
    likes := 0, last_viewed_at := none, updated_at := 0, created_at := 0, author_id := 1 }

def st4 : ArticleStore := { articles := [a4], nextId := 6 }

/-- Witness for C4: user 2 (authenticated through the cookie) tries to
update article 5, authored by user 1. -/
theorem claim4_witness :
    update_article (a4.id : Int) { title := some "X", content := some "Y", cover_image := none }
        req4 st4 "s" 0 = (Except.error err403, st4) ∧
    err403 ≠ err404Article :=
  claim4_update_by_non_author_forbidden st4 a4
    { title := some "X", content := some "Y", cover_image := none } req4 "s" 0 2
    (by decide) (by decide) (by decide) (by decide) (by decide)

/-- The composite trending key, characterised as the ordering of §4.4. -/
theorem trendingKeyGE_iff (a b : Article) : trendingKeyGE a b = true ↔
    (b.views < a.views ∨ (a.views = b.views ∧
      (b.likes < a.likes ∨ (a.likes = b.likes ∧ b.created_at ≤ a.created_at)))) := by
  simp only [trendingKeyGE]
  split_ifs <;> simp only [decide_eq_true_eq] <;> omega

/-- The composite trending key is transitive. -/
theorem trendingKeyGE_trans (a b c : Article) (h1 : trendingKeyGE a b = true)
    (h2 : trendingKeyGE b c = true) : trendingKeyGE a c = true := by
  simp only [trendingKeyGE] at h1 h2 ⊢
  split_ifs at h1 h2 ⊢ <;> simp only [decide_eq_true_eq] at h1 h2 ⊢ <;> omega

/-- The composite trending key is total. -/
theorem trendingKeyGE_total (a b : Article) :
    (trendingKeyGE a b || trendingKeyGE b a) = true := by
  simp only [trendingKeyGE, Bool.or_eq_true]
  split_ifs <;> simp only [decide_eq_true_eq] <;> omega

/-- C5: the claim says `trending(limit=10)` returns at most 10 articles,
sorted by views descending, ties by likes descending, remaining ties by
created_at descending.  The query sorts under exactly that composite key
and takes the first ten rows. -/
theorem claim5_trending_sorted (st : ArticleStore) :
    (get_trending_articles st).length ≤ 10 ∧
    (get_trending_articles st).Pairwise (fun a b =>
      b.views < a.views ∨ (a.views = b.views ∧
        (b.likes < a.likes ∨ (a.likes = b.likes ∧ b.created_at ≤ a.created_at)))) := by
  constructor
  · show ((st.articles.mergeSort trendingKeyGE).take 10).length ≤ 10
    rw [List.length_take]
    exact inf_le_left
  · have hs := List.sorted_mergeSort trendingKeyGE_trans trendingKeyGE_total st.articles
    have ht : (get_trending_articles st).Pairwise (fun a b => trendingKeyGE a b = true) :=
      List.Pairwise.sublist (List.take_sublist 10 _) hs
    exact List.Pairwise.imp (fun h => (trendingKeyGE_iff _ _).mp h) ht

/-- C6: the claim says a `get` on an existing article id increments
`views` by exactly one and sets `last_viewed_at` to the current time,
leaving title, content, likes, cover image, author, `created_at` and in
particular `updated_at` unchanged, and that a `get` on a non-existent id
raises not-found rather than silently doing nothing.  Rows of the table
carry pairwise distinct primary keys. -/
theorem claim6_get_view_increment (st : ArticleStore) (i : Int) (now : Nat)
    (huniq : st.articles.Pairwise (fun x y => x.id ≠ y.id)) :
    (∀ a ∈ st.articles, (a.id : Int) = i →
      ∃ a' st', get_article i st now = (Except.ok a', st') ∧
        a'.views = a.views + 1 ∧ a'.last_viewed_at = some now ∧
        a'.title = a.title ∧ a'.content = a.content ∧ a'.likes = a.likes ∧
        a'.cover_image = a.cover_image ∧ a'.author_id = a.author_id ∧
        a'.created_at = a.created_at ∧ a'.updated_at = a.updated_at ∧
        st'.articles = st.articles.map (fun b => if b.id = a.id then a' else b) ∧
        st'.nextId = st.nextId) ∧
    ((∀ a ∈ st.articles, (a.id : Int) ≠ i) →
      get_article i st now = (Except.error err404Article, st)) := by
  constructor
  · intro a ha hid
    have hfind : dbGetArticle st i = some a := by
      rw [← hid]
      exact dbGetArticle_eq_some st a huniq ha
    refine ⟨{ a with views := a.views + 1, last_viewed_at := some now },
            commitArticle st { a with views := a.views + 1, last_viewed_at := some now },
            ?_, rfl, rfl, rfl, rfl, rfl, rfl, rfl, rfl, rfl, rfl, rfl⟩
    simp [get_article, hfind]
  · intro hnone
    have hfind : dbGetArticle st i = none := by
      simp only [dbGetArticle]
      rw [List.find?_eq_none]
      intro x hx
      simpa using hnone x hx
    simp [get_article, hfind]

def a6 : Article :=
  { id := 7, title := "T", content := "B", cover_image := none, views := 4,
    likes := 2, last_viewed_at := none, updated_at := 1, created_at := 1, author_id := 1 }

def st6 : ArticleStore := { articles := [a6], nextId := 8 }

/-- Witness for C6: a store holding one article with id 7 and four views. -/
theorem claim6_witness :
    (∀ a ∈ st6.articles, (a.id : Int) = (7 : Int) →
      ∃ a' st', get_article 7 st6 3 = (Except.ok a', st') ∧
        a'.views = a.views + 1 ∧ a'.last_viewed_at = some 3 ∧
        a'.title = a.title ∧ a'.content = a.content ∧ a'.likes = a.likes ∧
        a'.cover_image = a.cover_image ∧ a'.author_id = a.author_id ∧
        a'.created_at = a.created_at ∧ a'.updated_at = a.updated_at ∧
        st'.articles = st6.articles.map (fun b => if b.id = a.id then a' else b) ∧
        st'.nextId = st6.nextId) ∧
    ((∀ a ∈ st6.articles, (a.id : Int) ≠ (7 : Int)) →
      get_article 7 st6 3 = (Except.error err404Article, st6)) :=
  claim6_get_view_increment st6 7 3 (by decide)

/-- A truthy optional string is `some` of its default-read value. -/
theorem optStrTruthy_getD (o : Option String) (h : optStrTruthy o = true) :
    some (o.getD "") = o := by
  cases o with
  | none => simp [optStrTruthy] at h
  | some s => rfl

/-- C7: the claim says `create` by an authenticated caller rejects an
empty or missing title or content with a validation error persisting
nothing, and otherwise inserts exactly one article authored by the caller
with zero counters and both timestamps set to now.  Authenticated user
ids are database primary keys, which start at 1, hence `u ≠ 0`. -/
theorem claim7_create_validation_and_insert (st : ArticleStore) (data : ArticleData)
    (req : Request) (secret : String) (now : Nat) (u : Nat)
    (hauth : get_current_user_id req secret now = some u) (hu : u ≠ 0) :
    ((optStrTruthy data.title = false ∨ optStrTruthy data.content = false) →
      create_article data req st secret now = (Except.error err400Fields, st)) ∧
    (optStrTruthy data.title = true → optStrTruthy data.content = true →
      ∃ a, create_article data req st secret now =
          (Except.ok a, { articles := st.articles ++ [a], nextId := st.nextId + 1 }) ∧
        a.author_id = u ∧ a.views = 0 ∧ a.likes = 0 ∧ a.created_at = now ∧
        a.updated_at = now ∧ some a.title = data.title ∧
        some a.content = data.content ∧ a.cover_image = data.cover_image ∧
        a.id = st.nextId) := by
  constructor
  · intro h
    rcases h with h | h <;> simp [create_article, hauth, optNatTruthy, hu, h]
  · intro ht hc
    refine ⟨{ id := st.nextId, title := data.title.getD "",
              content := data.content.getD "", cover_image := data.cover_image,
              views := 0, likes := 0, last_viewed_at := none, updated_at := now,
              created_at := now, author_id := u },
            ?_, rfl, rfl, rfl, rfl, rfl,
            optStrTruthy_getD data.title ht, optStrTruthy_getD data.content hc,
            rfl, rfl⟩
    simp [create_article, hauth, optNatTruthy, hu, ht, hc]

def tok7 : Jwt := jwtEncode { user_id := some 3, exp := none } "s"

def req7 : Request := { quillr_cookie := some tok7, authorization := none }

/-- Witness for C7: user 3 creates an article in an empty store. -/
theorem claim7_witness :
    ((optStrTruthy (some "Hi") = false ∨ optStrTruthy (some "World") = false) →
      create_article { title := some "Hi", content := some "World", cover_image := none }
          req7 { articles := [], nextId := 1 } "s" 9 =
        (Except.error err400Fields, { articles := [], nextId := 1 })) ∧
    (optStrTruthy (some "Hi") = true → optStrTruthy (some "World") = true →
      ∃ a, create_article { title := some "Hi", content := some "World", cover_image := none }
          req7 { articles := [], nextId := 1 } "s" 9 =
          (Except.ok a, { articles := [] ++ [a], nextId := 1 + 1 }) ∧
        a.author_id = 3 ∧ a.views = 0 ∧ a.likes = 0 ∧ a.created_at = 9 ∧
        a.updated_at = 9 ∧ some a.title = some "Hi" ∧
        some a.content = some "World" ∧ a.cover_image = none ∧
        a.id = 1) :=
  claim7_create_validation_and_insert { articles := [], nextId := 1 }
    { title := some "Hi", content := some "World", cover_image := none }
    req7 "s" 9 3 (by decide) (by decide)

def req8 : Request :=
  { quillr_cookie := some (Jwt.malformed ""),
    authorization := some (AuthHeader.bearer (jwtEncode { user_id := some 1, exp := none } "s")) }

/-- C8 counterexample: a request carrying the cookie `quillr_token=` (the
cookie is present with the empty string as value) together with a valid
Bearer credential for user 1.  The claim says that when the cookie is
present it is the one credential that gets verified, which would fail and
yield anonymous; the code instead treats the empty cookie as unset, falls
back to the header, and yields user 1. -/
theorem claim8_counterexample :
    get_current_user_id req8 "s" 0 = some 1 ∧
    authenticateCookieFirstStrict req8 "s" 0 = none ∧
    get_current_user_id req8 "s" 0 ≠ authenticateCookieFirstStrict req8 "s" 0 := by
  decide

/-- C8 amended: the session boundary reads the `quillr_token` cookie
first and, only if the cookie is absent *or empty*, the
`Authorization: Bearer` header; the first credential so found is the one
verified, with no merging, and a request with neither source or with a
failing credential yields anonymous.  Proved as an equality between
`get_current_user_id` and the spec-worded resolver on every request. -/
theorem claim8_session_boundary_amended (req : Request) (secret : String) (now : Nat) :
    get_current_user_id req secret now = authenticateCookieFirstAmended req secret now := by
  rcases req with ⟨ck, ah⟩
  cases ck with
  | none =>
    simp only [get_current_user_id, extractToken, authenticateCookieFirstAmended]
    cases hh : headerToken ah with
    | none => rfl
    | some t =>
      cases he : tokenIsEmpty t with
      | false => simp [verify_token, he]
      | true => simp [verify_token, he]
  | some c =>
    cases hc : tokenIsEmpty c with
    | true =>
      simp only [get_current_user_id, extractToken, authenticateCookieFirstAmended, hc]
      cases hh : headerToken ah with
      | none => rfl
      | some t =>
        cases he : tokenIsEmpty t with
        | false => simp [verify_token, he]
        | true => simp [verify_token, he]
    | false =>
      simp [get_current_user_id, extractToken, authenticateCookieFirstAmended, hc, verify_token]

def user9a : User :=
  { id := some 1, google_id := "g1", email := "a@x.com", name := none,
    picture := none, created_at := 0 }

def user9b : User :=
  { id := some 2, google_id := "g2", email := "b@y.com", name := none,
    picture := none, created_at := 0 }

def st9 : UserStore := { users := [user9a, user9b], nextId := 3 }

/-- C9 counterexample: the table holds user 1 (external id g1, email
a@x.com) and user 2 (external id g2, email b@y.com).  `resolve(g2,
a@x.com)` must, per the claim, return user 2 — the user whose external_id
matches.  The code's single OR-filter with `.first()` returns user 1, the
earlier row, which matches only by email. -/
theorem claim9_counterexample :
    (google_callback_resolve st9 "g2" "a@x.com" none none 5).1 = user9a ∧
    (resolveSpecPriority st9 "g2" "a@x.com" none none 5).1 = user9b ∧
    user9a ≠ user9b := by
  decide

/-- C9 amended: `resolve` returns the first stored User, in table order,
whose external_id **or** email matches (with no priority of external_id
over email); only when no stored user matches either does it create and
persist a new User carrying the supplied attributes; in all cases the
returned User has a non-null id. -/
theorem claim9_resolver_amended (st : UserStore) (gid email : String)
    (name picture : Option String) (now : Nat)
    (hid : ∀ u ∈ st.users, u.id.isSome = true) :
    (google_callback_resolve st gid email name picture now).1.id.isSome = true ∧
    (∀ u, findUserByGidOrEmail st gid email = some u →
      google_callback_resolve st gid email name picture now = (u, st)) ∧
    (findUserByGidOrEmail st gid email = none →
      google_callback_resolve st gid email name picture now =
        ({ id := some st.nextId, google_id := gid, email := email, name := name,
           picture := picture, created_at := now },
         { users := st.users ++
            [{ id := some st.nextId, google_id := gid, email := email, name := name,
               picture := picture, created_at := now }],
           nextId := st.nextId + 1 })) := by
  refine ⟨?_, ?_, ?_⟩
  · cases hf : findUserByGidOrEmail st gid email with
    | none => simp [google_callback_resolve, hf]
    | some u =>
      have hm : u ∈ st.users := List.mem_of_find?_eq_some hf
      have hu := hid u hm
      simp [google_callback_resolve, hf, hu]
  · intro u hf
    simp [google_callback_resolve, hf]
  · intro hf
    simp [google_callback_resolve, hf]

/-- Witness for C9 amended, at the store of the counterexample with an
identity matching no stored row, exercising the creation branch. -/
theorem claim9_amended_witness :
    (google_callback_resolve st9 "g9" "c@z.com" (some "N") none 7).1.id.isSome = true ∧
    (∀ u, findUserByGidOrEmail st9 "g9" "c@z.com" = some u →
      google_callback_resolve st9 "g9" "c@z.com" (some "N") none 7 = (u, st9)) ∧
    (findUserByGidOrEmail st9 "g9" "c@z.com" = none →
      google_callback_resolve st9 "g9" "c@z.com" (some "N") none 7 =
        ({ id := some st9.nextId, google_id := "g9", email := "c@z.com", name := some "N",
           picture := none, created_at := 7 },
         { users := st9.users ++
            [{ id := some st9.nextId, google_id := "g9", email := "c@z.com", name := some "N",
               picture := none, created_at := 7 }],
           nextId := st9.nextId + 1 })) :=
  claim9_resolver_amended st9 "g9" "c@z.com" (some "N") none 7 (by decide)

/-- C10: the claim says that when `resolve` finds an existing User — by
external_id or email in the routers/auth.py variant, by external_id in
the app/main.py variant — it never writes to that row: the store is
returned unchanged and the pre-existing row itself is returned, so its
stored google_id, email, name, picture and created_at keep their
first-seen values whatever fresh `name`/`picture` the provider supplies. -/
theorem claim10_no_overwrite_on_relogin (st : UserStore) (gid email : String)
    (name picture : Option String) (now : Nat) :
    (∀ u, findUserByGidOrEmail st gid email = some u →
      google_callback_resolve st gid email name picture now = (u, st)) ∧
    (∀ v, st.users.find? (fun w => w.google_id = gid) = some v →
      main_callback_resolve st gid email name picture now = (v, st)) := by
  constructor
  · intro u h1
    simp [google_callback_resolve, h1]
  · intro v h2
    simp [main_callback_resolve, h2]

/-- A user whose stored provider id differs from the one the provider now
asserts: a re-login for this user matches by email alone. -/
def user10churn : User :=
  { id := some 1, google_id := "old-g", email := "e@x.com", name := some "First",
    picture := some "p1", created_at := 2 }

def user10gid : User :=
  { id := some 2, google_id := "new-g", email := "other@x.com", name := some "Second",
    picture := none, created_at := 3 }

def st10 : UserStore := { users := [user10churn, user10gid], nextId := 3 }

/-- Witness for C10, exercising both lookup routes non-vacuously: for
`resolve("new-g", "e@x.com", ...)` with changed name/picture, the
routers/auth.py OR-filter finds `user10churn` by email alone (its stored
google_id differs — provider id churn) and the app/main.py gid-only
lookup finds `user10gid`; both return their stored row and leave the
store untouched. -/
theorem claim10_witness :
    (∀ u, findUserByGidOrEmail st10 "new-g" "e@x.com" = some u →
      google_callback_resolve st10 "new-g" "e@x.com" (some "Changed") (some "p2") 99 = (u, st10)) ∧
    (∀ v, st10.users.find? (fun w => w.google_id = "new-g") = some v →
      main_callback_resolve st10 "new-g" "e@x.com" (some "Changed") (some "p2") 99 = (v, st10)) :=
  claim10_no_overwrite_on_relogin st10 "new-g" "e@x.com" (some "Changed") (some "p2") 99

/-- The two find conditions of the C10 witness hold, each at its own
stored row, so neither implication above is vacuous. -/
theorem claim10_witness_branches :
    findUserByGidOrEmail st10 "new-g" "e@x.com" = some user10churn ∧
    st10.users.find? (fun w => w.google_id = "new-g") = some user10gid := by
  decide

end Quillr
